import Mathlib

/-!
Verification of the DistroAV video-converter core (src/ndi-video-converter.cpp,
src/ndi-filter.cpp) against its natural-language specification.

The C code is shallowly embedded: the converter struct `ndi_video_converter_t`
becomes the Lean structure `Conv`, the OBS settings snapshot becomes `Settings`,
and each C function becomes a pure Lean function threading the state
explicitly.  Machine integers are modelled as `Nat`/`Int` with explicit
`% 2^32` / `% 2^64` wrapping at exactly the places where the C code performs
conversions or unsigned arithmetic that can wrap.
-/

/-- C cast `(uint32_t)x` of a 64-bit signed value `x`: reduce mod 2^32. -/
def u32cast (i : Int) : Nat := (i % (2 ^ 32 : Int)).toNat

/-- C cast `(int32_t)x` of a 64-bit signed value `x`: wrap into
[-2^31, 2^31). -/
def i32cast (i : Int) : Int :=
  let m := i % (2 ^ 32 : Int)
  if m < 2 ^ 31 then m else m - 2 ^ 32

/-- Reinterpret a `uint64_t` bit pattern (a `Nat` below `2^64`) as `int64_t`. -/
def int64OfUInt64 (n : Nat) : Int :=
  if n % 2 ^ 64 < 2 ^ 63 then ((n % 2 ^ 64 : Nat) : Int)
  else ((n % 2 ^ 64 : Nat) : Int) - 2 ^ 64

/-- Wrapping `uint64_t` subtraction `a - b`. -/
def sub64 (a b : Nat) : Nat := (a % 2 ^ 64 + 2 ^ 64 - b % 2 ^ 64) % 2 ^ 64

/--
The converter state `ndi_video_converter_t` (ndi-video-converter.h, lines
65-111).  Enum fields (`resolution_mode`, `framerate_mode`, `scale_type`,
`source_format`) are carried as their underlying integer values because the C
code casts raw `int64_t` settings values into them unchecked.  The opaque
pointers `scaler` (a `video_scaler_t *`) and `scaled_buffer` (a `uint8_t *`)
are modelled by their identity only: `none` is the null pointer and
`some k` is the k-th allocation handed out by the allocator, whose next
fresh identity is tracked in the ghost field `alloc_ctr` (the C heap
allocator `bmalloc` / `video_scaler_create` always returns a pointer distinct
from every live one).
-/
structure Conv where
  enable_custom_resolution : Bool
  resolution_mode : Int
  custom_width : Nat
  custom_height : Nat
  target_width : Nat
  target_height : Nat
  scale_type : Int
  enable_crop : Bool
  crop_left : Int
  crop_top : Int
  crop_width : Nat
  crop_height : Nat
  enable_custom_framerate : Bool
  framerate_mode : Int
  custom_fps_num : Nat
  custom_fps_den : Nat
  target_fps_num : Nat
  target_fps_den : Nat
  scaler : Option Nat
  scaled_buffer : Option Nat
  scaled_buffer_size : Nat
  accumulator_ns : Int
  target_frame_interval_ns : Int
  last_frame_timestamp : Nat
  source_width : Nat
  source_height : Nat
  source_format : Int
  cached_crop_left : Int
  cached_crop_top : Int
  cached_crop_width : Nat
  cached_crop_height : Nat
  crop_cache_valid : Bool
  alloc_ctr : Nat
  deriving DecidableEq

/--
One OBS settings snapshot as read by `ndi_converter_update`:
`obs_data_get_int` yields `int64_t` (modelled `Int`), `obs_data_get_bool`
yields `Bool`.
-/
structure Settings where
  enable_custom_resolution : Bool
  resolution_mode : Int
  custom_width : Int
  custom_height : Int
  scale_type : Int
  enable_crop : Bool
  crop_left : Int
  crop_top : Int
  crop_width : Int
  crop_height : Int
  enable_custom_framerate : Bool
  framerate_mode : Int
  custom_fps_num : Int
  custom_fps_den : Int
  deriving DecidableEq

/-- `ndi_converter_init` (ndi-video-converter.cpp, lines 38-50): zero the
struct, then set the defaults.  Enum values: NDI_RESOLUTION_AUTO = 0,
NDI_SCALE_BICUBIC = 2, NDI_FRAMERATE_AUTO = 0. -/
def ndi_converter_init : Conv :=
  { enable_custom_resolution := false
    resolution_mode := 0
    custom_width := 1920
    custom_height := 1080
    target_width := 0
    target_height := 0
    scale_type := 2
    enable_crop := false
    crop_left := 0
    crop_top := 0
    crop_width := 0
    crop_height := 0
    enable_custom_framerate := false
    framerate_mode := 0
    custom_fps_num := 30
    custom_fps_den := 1
    target_fps_num := 0
    target_fps_den := 0
    scaler := none
    scaled_buffer := none
    scaled_buffer_size := 0
    accumulator_ns := 0
    target_frame_interval_ns := 0
    last_frame_timestamp := 0
    source_width := 0
    source_height := 0
    source_format := 0
    cached_crop_left := 0
    cached_crop_top := 0
    cached_crop_width := 0
    cached_crop_height := 0
    crop_cache_valid := false
    alloc_ctr := 0 }

/-- `ndi_converter_get_preset_resolution` (ndi-video-converter.cpp, lines
52-76).  Enum values NDI_RESOLUTION_720P = 1 .. NDI_RESOLUTION_4K = 4; the
default case (including NDI_RESOLUTION_AUTO = 0 and any out-of-range cast
value) yields (0, 0). -/
def ndi_converter_get_preset_resolution (mode : Int) : Nat × Nat :=
  if mode = 1 then (1280, 720)
  else if mode = 2 then (1920, 1080)
  else if mode = 3 then (2560, 1440)
  else if mode = 4 then (3840, 2160)
  else (0, 0)

/-- `ndi_converter_get_preset_framerate` (ndi-video-converter.cpp, lines
78-126).  Enum values NDI_FRAMERATE_5 = 1 .. NDI_FRAMERATE_5994 = 10; the
default case (including NDI_FRAMERATE_AUTO = 0) yields (0, 0). -/
def ndi_converter_get_preset_framerate (mode : Int) : Nat × Nat :=
  if mode = 1 then (5, 1)
  else if mode = 2 then (10, 1)
  else if mode = 3 then (15, 1)
  else if mode = 4 then (24, 1)
  else if mode = 5 then (25, 1)
  else if mode = 6 then (30, 1)
  else if mode = 7 then (30000, 1001)
  else if mode = 8 then (50, 1)
  else if mode = 9 then (60, 1)
  else if mode = 10 then (60000, 1001)
  else (0, 0)

/--
The target frame interval computed at ndi-video-converter.cpp line 199-200:
`(int64_t)((1000000000.0 * den) / num)` — a binary64 computation truncated
toward zero.  We embed it as exact rational truncation `⌊10^9 * den / num⌋`.
The two agree at every point any theorem below evaluates it, and the
positivity of the two always agrees for all `uint32_t` inputs:

* positivity: the binary64 result truncates to a nonzero value iff the
  rounded quotient is ≥ 1.  When the exact quotient `10^9*den/num` is < 1 it
  is ≤ 1 - 1/num ≤ 1 - 2^-32, far below 1 relative to the ≤ 2^-52 relative
  error of the two roundings, so the computed value stays < 1; when it is
  ≥ 1, then `num ≥ 10^9*den / 2` forces `den ≤ 8` (as `num < 2^32`), so
  `1000000000.0 * den` is exact (< 2^53) and the correctly rounded quotient
  of an exact value ≥ 1 is ≥ 1.  Hence both models give 0 exactly when
  `10^9 * den < num`.
* exact values used below: for den = 1001, num = 30000 the product
  1.001e12 is exact, the exact quotient 33366666.666... has fractional part
  2/3 while the binary64 rounding error is < 2^-27 < 10^-8, so the binary64
  truncation equals the exact floor 33366666.
-/
def target_interval_ns (num den : Nat) : Int :=
  if 0 < num ∧ 0 < den then ((1000000000 * den) / num : Nat) else 0

/-- `ndi_converter_update` (ndi-video-converter.cpp, lines 128-213): read the
settings snapshot, clamp out-of-range values, derive target resolution and
target frame interval, and (only when custom frame rate is enabled) reset the
pacing accumulator and last-timestamp.  NDI_RESOLUTION_CUSTOM = 5,
NDI_FRAMERATE_CUSTOM = 11. -/
def ndi_converter_update (c : Conv) (s : Settings) : Conv :=
  let cw0 := u32cast s.custom_width
  let cw1 := if cw0 < 128 then 128 else cw0
  let cw := if cw1 > 7680 then 7680 else cw1
  let ch0 := u32cast s.custom_height
  let ch1 := if ch0 < 72 then 72 else ch0
  let ch := if ch1 > 4320 then 4320 else ch1
  let res :=
    if s.enable_custom_resolution then
      if s.resolution_mode = 5 then (cw, ch)
      else ndi_converter_get_preset_resolution s.resolution_mode
    else (0, 0)
  let cl0 := i32cast s.crop_left
  let cl := if cl0 < 0 then 0 else cl0
  let ct0 := i32cast s.crop_top
  let ct := if ct0 < 0 then 0 else ct0
  let fn0 := u32cast s.custom_fps_num
  let fn := if fn0 < 1 then 1 else fn0
  let fd0 := u32cast s.custom_fps_den
  let fd := if fd0 < 1 then 1 else fd0
  if s.enable_custom_framerate then
    let fr :=
      if s.framerate_mode = 11 then (fn, fd)
      else ndi_converter_get_preset_framerate s.framerate_mode
    { c with
      enable_custom_resolution := s.enable_custom_resolution
      resolution_mode := s.resolution_mode
      custom_width := cw
      custom_height := ch
      scale_type := s.scale_type
      target_width := res.1
      target_height := res.2
      enable_crop := s.enable_crop
      crop_left := cl
      crop_top := ct
      crop_width := u32cast s.crop_width
      crop_height := u32cast s.crop_height
      enable_custom_framerate := true
      framerate_mode := s.framerate_mode
      custom_fps_num := fn
      custom_fps_den := fd
      target_fps_num := fr.1
      target_fps_den := fr.2
      target_frame_interval_ns := target_interval_ns fr.1 fr.2
      accumulator_ns := 0
      last_frame_timestamp := 0 }
  else
    { c with
      enable_custom_resolution := s.enable_custom_resolution
      resolution_mode := s.resolution_mode
      custom_width := cw
      custom_height := ch
      scale_type := s.scale_type
      target_width := res.1
      target_height := res.2
      enable_crop := s.enable_crop
      crop_left := cl
      crop_top := ct
      crop_width := u32cast s.crop_width
      crop_height := u32cast s.crop_height
      enable_custom_framerate := false
      framerate_mode := s.framerate_mode
      custom_fps_num := fn
      custom_fps_den := fd
      target_fps_num := 0
      target_fps_den := 0
      target_frame_interval_ns := 0 }

/--
The `while (accumulator_ns >= target_frame_interval_ns)` drain loop of
`ndi_converter_should_send_frame` (ndi-video-converter.cpp, lines 359-363),
in closed form: returns the final accumulator and the iteration count.  For
`0 < T` this is exactly what the loop computes (see `drain_step` below); the
loop is only ever entered with `T ≠ 0`, and `T` is never negative in any
state produced by `ndi_converter_update`.
-/
def drain (acc T : Int) : Int × Nat :=
  if 0 < T ∧ T ≤ acc then (((acc.toNat % T.toNat : Nat) : Int), acc.toNat / T.toNat)
  else (acc, 0)

/--
`ndi_converter_should_send_frame` (ndi-video-converter.cpp, lines 341-367).
Returns (new state, boolean result, `*frames_to_send`).  The out-parameter
is initialized to 0; if custom frame rate is disabled or the target interval
is zero the function returns `true` leaving it at 0.  Otherwise the delta
since the last frame (0 while the 0-sentinel is in place) is accumulated and
the accumulator is drained in units of the target interval.  The `int64_t`
accumulator addition is modelled without wrapping: every theorem below stays
far inside the int64 range.
-/
def ndi_converter_should_send_frame (c : Conv) (ts : Nat) : Conv × Bool × Nat :=
  if ¬c.enable_custom_framerate ∨ c.target_frame_interval_ns = 0 then (c, true, 0)
  else
    let delta : Int :=
      if c.last_frame_timestamp > 0 then int64OfUInt64 (sub64 ts c.last_frame_timestamp)
      else 0
    let acc := c.accumulator_ns + delta
    let d := drain acc c.target_frame_interval_ns
    ({ c with accumulator_ns := d.1, last_frame_timestamp := ts % 2 ^ 64 },
     decide (0 < d.2), d.2)

/--
The frame-pacing decision made by `ndi_filter_raw_video` (ndi-filter.cpp,
lines 219-226) for a frame with a non-null data pointer: when custom frame
rate is enabled, consult `ndi_converter_should_send_frame`; drop the frame
(emit count 0) when it returns false or a zero count.  When disabled, the
local `frames_to_send` stays at its initializer 1 and the frame is emitted
once.  Returns (new state, number of times the frame is sent).
-/
def ndi_filter_emit_count (c : Conv) (ts : Nat) : Conv × Nat :=
  if c.enable_custom_framerate then
    let r := ndi_converter_should_send_frame c ts
    if ¬r.2.1 ∨ r.2.2 = 0 then (r.1, 0) else (r.1, r.2.2)
  else (c, 1)

/-- Feed a list of frame timestamps through the gate, summing the emit
counts returned by `ndi_converter_should_send_frame`. -/
def runGate (c : Conv) (tss : List Nat) : Conv × Nat :=
  tss.foldl
    (fun p ts =>
      let r := ndi_converter_should_send_frame p.1 ts
      (r.1, p.2 + r.2.2))
    (c, 0)

/--
`ndi_converter_update_scaler` (ndi-video-converter.cpp, lines 215-301).
Returns (new state, boolean result).  `create_ok` is the oracle for the
external `video_scaler_create` call (true ⇔ it returns VIDEO_SCALER_SUCCESS);
on success the new scaler is a fresh allocation.  The required buffer size
`target_width * target_height * 4` is a `uint32_t` product in C (both
operands are `uint32_t`), hence the `% 2^32`.
-/
def ndi_converter_update_scaler (c : Conv) (sw sh : Nat) (fmt : Int) (create_ok : Bool) :
    Conv × Bool :=
  if ¬c.enable_custom_resolution ∨ c.target_width = 0 ∨ c.target_height = 0 then (c, false)
  else
    let need_recreate :=
      c.scaler = none ∨ c.source_width ≠ sw ∨ c.source_height ≠ sh ∨ c.source_format ≠ fmt
    if ¬need_recreate then (c, true)
    else
      -- destroy old scaler, then create the new one
      let c1 := { c with scaler := none }
      if ¬create_ok then ({ c1 with scaler := none }, false)
      else
        let c2 :=
          { c1 with
            scaler := some c1.alloc_ctr
            alloc_ctr := c1.alloc_ctr + 1
            source_width := sw
            source_height := sh
            source_format := fmt }
        let required := c2.target_width * c2.target_height * 4 % 2 ^ 32
        if c2.scaled_buffer_size < required then
          ({ c2 with
             scaled_buffer := some c2.alloc_ctr
             alloc_ctr := c2.alloc_ctr + 1
             scaled_buffer_size := required }, true)
        else (c2, true)

/--
The crop-and-emit region computation of `ndi_filter_raw_video` (ndi-filter.cpp,
lines 237-311) for a frame with a non-null data pointer: returns the
(left, top, width, height) of the region handed to the sender, which is the
full frame (0, 0, kw, kh) when cropping is disabled or the computed rectangle
equals the full frame.  `kw`/`kh` are `f->known_width`/`f->known_height`
(the post-scale geometry) and `sw`/`sh` the values `obs_source_get_width` /
`obs_source_get_height` return for the source.

The source-to-scaled normalization (lines 257-274) is computed in C in
binary32: `scale_x = (float)kw / (float)sw`, then each coordinate is
multiplied by the scale factor and truncated by the integer cast.  We embed
it as exact rational truncation `⌊v * kw / sw⌋` (toward zero, `Int.tdiv`).
Every theorem below that exercises this path uses kw/sw = kh/sh = 1/2 with
coordinates ≤ 2^10, for which both the binary32 scale factor and the products
are exact, so the binary32 computation and the rational truncation coincide.

The dimension clamps (lines 294-297) compare `crop_left + crop_width` in
`unsigned int` arithmetic (the `int32_t` left operand is converted to
`uint32_t`), hence the explicit `% 2^32` on the sums; at those lines
`crop_left`/`crop_top` are already ≥ 0 whenever `kw ≥ 1` and `kh ≥ 1`, which
the filter guarantees (`known_width`/`known_height` are set from nonzero
render dimensions), so `Int.toNat` there is the identity on the value.
-/
def ndi_filter_crop_region (c : Conv) (kw kh sw sh : Nat) : Int × Int × Nat × Nat :=
  if ¬c.enable_crop then (0, 0, kw, kh)
  else
    let cl0 := c.crop_left
    let ct0 := c.crop_top
    let cwid0 := c.crop_width
    let chei0 := c.crop_height
    let norm :=
      c.enable_custom_resolution ∧ 0 < c.target_width ∧ 0 < c.target_height ∧
        0 < sw ∧ 0 < sh
    let cl1 := if norm then Int.tdiv (cl0 * kw) sw else cl0
    let ct1 := if norm then Int.tdiv (ct0 * kh) sh else ct0
    let cwid1 := if norm then cwid0 * kw / sw else cwid0
    let chei1 := if norm then chei0 * kh / sh else chei0
    -- 0 means use full dimension
    let cwid2 := if cwid1 = 0 then kw else cwid1
    let chei2 := if chei1 = 0 then kh else chei1
    -- clamp to valid range
    let cl2 := if cl1 < 0 then 0 else cl1
    let ct2 := if ct1 < 0 then 0 else ct1
    let cl3 := if (kw : Int) ≤ cl2 then (kw : Int) - 1 else cl2
    let ct3 := if (kh : Int) ≤ ct2 then (kh : Int) - 1 else ct2
    -- clamp dimensions to fit within frame (uint32 addition wraps)
    let cwid3 := if kw < (cl3.toNat + cwid2) % 2 ^ 32 then kw - cl3.toNat else cwid2
    let chei3 := if kh < (ct3.toNat + chei2) % 2 ^ 32 then kh - ct3.toNat else chei2
    if 0 < cwid3 ∧ 0 < chei3 ∧ (0 < cl3 ∨ 0 < ct3 ∨ cwid3 < kw ∨ chei3 < kh) then
      (cl3, ct3, cwid3, chei3)
    else (0, 0, kw, kh)

/-- The delta the specification ascribes to the gate:
`timestampNs - lastFrameTimestampNs`, forced to 0 while the 0 sentinel is in
place. -/
def claimDelta (c : Conv) (ts : Nat) : Int :=
  if 0 < c.last_frame_timestamp then (ts : Int) - c.last_frame_timestamp else 0

/-- A settings snapshot with every feature disabled and the numeric fields at
the property-panel defaults (ndi-filter.cpp, `ndi_filter_getdefaults`). -/
def defaultSettings : Settings :=
  { enable_custom_resolution := false
    resolution_mode := 0
    custom_width := 1920
    custom_height := 1080
    scale_type := 2
    enable_crop := false
    crop_left := 0
    crop_top := 0
    crop_width := 0
    crop_height := 0
    enable_custom_framerate := false
    framerate_mode := 0
    custom_fps_num := 30
    custom_fps_den := 1 }

/-- Custom frame rate enabled with the 29.97 fps preset
(NDI_FRAMERATE_2997 = 7, i.e. 30000/1001). -/
def settings2997 : Settings :=
  { defaultSettings with enable_custom_framerate := true, framerate_mode := 7 }

/-- The converter state after applying `settings2997` to a fresh converter:
frame-rate conversion at 30000/1001 with a freshly reset pacing state. -/
def conv2997 : Conv := ndi_converter_update ndi_converter_init settings2997

/-- Custom frame rate enabled but left in NDI_FRAMERATE_AUTO mode (= 0), whose
preset is (0, 0), so the resolved target interval is 0. -/
def settingsFpsAuto : Settings :=
  { defaultSettings with enable_custom_framerate := true, framerate_mode := 0 }

/-- Converter state with frame-rate conversion enabled and target interval 0. -/
def convFpsAuto : Conv := ndi_converter_update ndi_converter_init settingsFpsAuto

/-- Custom frame rate 2000000000/1 (mode NDI_FRAMERATE_CUSTOM = 11): both the
numerator and denominator are positive, yet 10^9 * 1 / 2000000000 truncates
to a zero target interval. -/
def settingsFpsHuge : Settings :=
  { defaultSettings with
    enable_custom_framerate := true
    framerate_mode := 11
    custom_fps_num := 2000000000
    custom_fps_den := 1 }

/-- Converter state resolved from `settingsFpsHuge`. -/
def convFpsHuge : Conv := ndi_converter_update ndi_converter_init settingsFpsHuge

/-- Custom resolution enabled at the 1080p preset (NDI_RESOLUTION_1080P = 2). -/
def settingsRes1080 : Settings :=
  { defaultSettings with enable_custom_resolution := true, resolution_mode := 2 }

/-- Custom resolution enabled at the 720p preset (NDI_RESOLUTION_720P = 1). -/
def settingsRes720 : Settings :=
  { defaultSettings with enable_custom_resolution := true, resolution_mode := 1 }

/-- Converter targeting 1920x1080. -/
def convRes1080 : Conv := ndi_converter_update ndi_converter_init settingsRes1080

/-- `convRes1080` after one successful `ndi_converter_update_scaler` call for
a 1280x720 source: the scaler handle and the scaled buffer have been
allocated for target 1920x1080. -/
def convScalerBuilt : Conv := (ndi_converter_update_scaler convRes1080 1280 720 0 true).1

/-- `convScalerBuilt` after a settings update that changes the target
resolution to 1280x720 while the source geometry stays 1280x720. -/
def convTargetChanged : Conv := ndi_converter_update convScalerBuilt settingsRes720

/-- A converter mid-run: 29.97 fps pacing with a nonzero accumulator and a
previous-frame timestamp. -/
def convMidRun : Conv :=
  { conv2997 with accumulator_ns := 5, last_frame_timestamp := 7 }

/-- Crop enabled, custom resolution disabled, with a crop width of
4294967246 = 2^32 - 50: the `uint32_t` sum `crop_left + crop_width` wraps. -/
def convCropWrap : Conv :=
  { ndi_converter_init with
    enable_crop := true
    crop_left := 100
    crop_top := 0
    crop_width := 4294967246
    crop_height := 0 }

/-- Crop of source-space width 1 with custom resolution downscaling 3840x2160
to 1920x1080 (scale factor 0.5). -/
def convCropTiny : Conv :=
  { ndi_converter_init with
    enable_crop := true
    enable_custom_resolution := true
    target_width := 1920
    target_height := 1080
    crop_left := 0
    crop_top := 0
    crop_width := 1
    crop_height := 0 }

/-- The 1001-frame timestamp sequence of the NTSC cadence test: frames spaced
exactly 33333333 ns apart, first timestamp 33333333 (any positive start gives
the same counts, since the gate only consumes timestamp differences). -/
def ntscTimestamps : List Nat := (List.range 1001).map (fun i => (i + 1) * 33333333)

/-- Custom frame rate 30000/1001 entered through NDI_FRAMERATE_CUSTOM = 11
rather than the 29.97 preset. -/
def settingsCustom2997 : Settings :=
  { defaultSettings with
    enable_custom_framerate := true
    framerate_mode := 11
    custom_fps_num := 30000
    custom_fps_den := 1001 }

/-!
## Helper lemmas
-/

/-- `drain` satisfies the one-step unfolding of the C while loop, which
justifies the closed form: one subtraction and increment per iteration. -/
theorem drain_step (acc T : Int) (hT : 0 < T) :
    drain acc T =
      if T ≤ acc then ((drain (acc - T) T).1, (drain (acc - T) T).2 + 1)
      else (acc, 0) := by
  unfold drain
  by_cases h : T ≤ acc
  · simp only [hT, true_and, h, if_pos]
    have htn : 0 < T.toNat := by omega
    have hval : acc.toNat = (acc - T).toNat + T.toNat := by omega
    by_cases h2 : T ≤ acc - T
    · simp only [hT, true_and, h2, if_pos, Prod.mk.injEq]
      constructor
      · simp only [hval, Nat.add_mod_right]
      · simp only [hval, Nat.add_div_right _ htn]
    · simp only [hT, true_and, h2, if_neg, not_false_iff, Prod.mk.injEq]
      have hlt : acc.toNat < 2 * T.toNat := by omega
      have hge : T.toNat ≤ acc.toNat := by omega
      constructor
      · have hmod : acc.toNat % T.toNat = acc.toNat - T.toNat := by
          rw [Nat.mod_eq_sub_mod hge, Nat.mod_eq_of_lt (by omega)]
        rw [hmod]; omega
      · have hdiv : acc.toNat / T.toNat = 1 := by
          rw [Nat.div_eq_sub_div htn hge, Nat.div_eq_of_lt (by omega)]
        rw [hdiv]
  · simp [h]
/-- Closed form of the drain loop on a nonnegative accumulator. -/
theorem drain_nonneg (acc T : Int) (hT : 0 < T) (hacc : 0 ≤ acc) :
    drain acc T = (((acc.toNat % T.toNat : Nat) : Int), acc.toNat / T.toNat) := by
  unfold drain
  by_cases h : T ≤ acc
  · simp [hT, h]
  · have h1 : acc.toNat < T.toNat := by omega
    rw [if_neg (by tauto), Nat.mod_eq_of_lt h1, Nat.div_eq_of_lt h1, Prod.mk.injEq]
    exact ⟨by omega, rfl⟩

/-- The wrapped `uint64_t` difference reinterpreted as `int64_t` is the exact
difference whenever the timestamps do not decrease and the gap is below
2^63. -/
theorem int64OfUInt64_sub64 (a b : Nat) (hb : b ≤ a) (ha : a < 2 ^ 64)
    (hgap : a - b < 2 ^ 63) : int64OfUInt64 (sub64 a b) = (a : Int) - b := by
  unfold int64OfUInt64 sub64
  have h1 : a % 2 ^ 64 = a := Nat.mod_eq_of_lt ha
  have h2 : b % 2 ^ 64 = b := Nat.mod_eq_of_lt (by omega)
  rw [h1, h2]
  have h3 : a + 2 ^ 64 - b = 2 ^ 64 + (a - b) := by omega
  have h4 : (2 ^ 64 + (a - b)) % 2 ^ 64 = (a - b) % 2 ^ 64 := by
    omega
  have h5 : (a - b) % 2 ^ 64 = a - b := Nat.mod_eq_of_lt (by omega)
  rw [h3, h4, h5]
  have h6 : (a - b) % 2 ^ 64 = a - b := h5
  rw [if_pos (by omega)]
  omega

/-- Positivity of the resolved target interval: nonzero exactly when both
rate components are positive and the rate does not exceed 10^9 fps. -/
theorem target_interval_pos_iff (n d : Nat) :
    0 < target_interval_ns n d ↔ 0 < n ∧ 0 < d ∧ n ≤ 1000000000 * d := by
  unfold target_interval_ns
  by_cases h : 0 < n ∧ 0 < d
  · rw [if_pos h]
    obtain ⟨hn, hd⟩ := h
    constructor
    · intro hpos
      refine ⟨hn, hd, ?_⟩
      by_contra hlt
      rw [Nat.div_eq_of_lt (by omega)] at hpos
      simp at hpos
    · rintro ⟨-, -, hle⟩
      have := Nat.div_pos hle hn
      exact_mod_cast this
  · rw [if_neg h]
    simp only [lt_self_iff_false, false_iff]
    omega

/-- The resolution preset table returns a positive pair exactly for the four
real presets. -/
theorem preset_resolution_pos_iff (m : Int) :
    (0 < (ndi_converter_get_preset_resolution m).1 ∧
      0 < (ndi_converter_get_preset_resolution m).2) ↔
      (m = 1 ∨ m = 2 ∨ m = 3 ∨ m = 4) := by
  unfold ndi_converter_get_preset_resolution
  split_ifs <;> simp_all

/-- `ndi_converter_update_scaler` never changes the target geometry. -/
theorem update_scaler_preserves_target (c : Conv) (sw sh : Nat) (fmt : Int) (ok : Bool) :
    (ndi_converter_update_scaler c sw sh fmt ok).1.target_width = c.target_width ∧
    (ndi_converter_update_scaler c sw sh fmt ok).1.target_height = c.target_height := by
  constructor <;>
  · simp only [ndi_converter_update_scaler]
    split_ifs <;> rfl

/-!
## Claim theorems
-/

/-- C1: the claim says that whenever frame-rate conversion is disabled or
targetIntervalNs is 0, the gate yields an emit count of exactly 1.  The
disabled half holds (the last conjunct), but with frame-rate conversion
enabled and a zero target interval (NDI_FRAMERATE_AUTO resolves to preset
(0,0), interval 0) `ndi_converter_should_send_frame` returns true while
leaving `*frames_to_send` at 0, and `ndi_filter_raw_video` therefore drops
the frame: emit count 0, contradicting the claim and the code's own
"send all frames" comment. -/
theorem C1_zero_interval_frame_dropped :
    convFpsAuto.enable_custom_framerate = true ∧
    convFpsAuto.target_frame_interval_ns = 0 ∧
    (ndi_converter_should_send_frame convFpsAuto 12345).2 = (true, 0) ∧
    (ndi_filter_emit_count convFpsAuto 12345).2 = 0 ∧
    (ndi_filter_emit_count { convFpsAuto with enable_custom_framerate := false } 12345).2 = 1 := by
  decide

/-- C2 counterexample: for target 30000/1001 the resolver does not set
targetIntervalNs to round(1e9 x den / num) = 33366667. -/
theorem C2_interval_not_rounded :
    conv2997.target_frame_interval_ns ≠ 33366667 := by decide

/-- C2 amended: the resolver truncates 1e9 x den / num toward zero; for
target 30000/1001 (whether selected by the 29.97 preset or entered as a
custom rate) targetIntervalNs is exactly 33366666. -/
theorem C2_interval_truncated :
    conv2997.target_fps_num = 30000 ∧ conv2997.target_fps_den = 1001 ∧
    conv2997.target_frame_interval_ns = 33366666 ∧
    (ndi_converter_update ndi_converter_init settingsCustom2997).target_frame_interval_ns =
      33366666 := by
  decide

/-- C5 counterexample: with frame rate enabled at custom rate 2000000000/1,
the resolved targetNum and targetDen are both positive yet targetIntervalNs
is 0 (1e9 x 1 / 2000000000 truncates to 0), refuting the claimed
equivalence targetIntervalNs > 0 iff enabled and num > 0 and den > 0. -/
theorem C5_interval_iff_fails_for_huge_fps :
    convFpsHuge.enable_custom_framerate = true ∧
    0 < convFpsHuge.target_fps_num ∧ 0 < convFpsHuge.target_fps_den ∧
    convFpsHuge.target_frame_interval_ns = 0 := by decide

/-- C6 counterexample: a settings update changes the target from 1920x1080 to
1280x720, yet the next `ndi_converter_update_scaler` call with unchanged
source geometry returns the state untouched, still holding the scaler that
was built for the old target - no destroy, no recreate. -/
theorem C6_target_change_reuses_stale_scaler :
    convScalerBuilt.scaler = some 0 ∧
    convScalerBuilt.target_width = 1920 ∧ convScalerBuilt.target_height = 1080 ∧
    convTargetChanged.target_width = 1280 ∧ convTargetChanged.target_height = 720 ∧
    convTargetChanged.scaler = some 0 ∧
    ndi_converter_update_scaler convTargetChanged 1280 720 0 true =
      (convTargetChanged, true) := by
  decide

/-- C7: the claim (and the code's own "Clamp dimensions to fit within frame"
comment) promises left + width <= knownWidth, but the clamp compares
`crop_left + crop_width` in wrapping `uint32_t` arithmetic: with
crop_left = 100 and crop_width = 2^32 - 50 the sum wraps to 50, the clamp is
skipped, and the emitted rectangle extends 4294967246 pixels from column 100
of a 1920-pixel-wide frame. -/
theorem C7_crop_clamp_uint32_wrap :
    ndi_filter_crop_region convCropWrap 1920 1080 1920 1080 = (100, 0, 4294967246, 1080) ∧
    1920 < 100 + 4294967246 := by decide

/-- C9 counterexample: a settings update that disables frame-rate conversion
(a frame-rate configuration change) leaves accumulatorNs = 5 and
lastFrameTimestampNs = 7 untouched instead of resetting them to 0. -/
theorem C9_disable_keeps_pacing_state :
    convMidRun.enable_custom_framerate = true ∧
    (ndi_converter_update convMidRun defaultSettings).enable_custom_framerate = false ∧
    (ndi_converter_update convMidRun defaultSettings).accumulator_ns = 5 ∧
    (ndi_converter_update convMidRun defaultSettings).last_frame_timestamp = 7 ∧
    (ndi_converter_update convMidRun defaultSettings).accumulator_ns ≠ 0 := by decide

/-- C9 amended: an update resets accumulatorNs and lastFrameTimestampNs to 0
exactly when the new settings have frame-rate conversion enabled; a
disabling update leaves both untouched (the stale values are ignored while
disabled, since the gate early-returns, and are reset by any later enabling
update). -/
theorem C9_reset_iff_enabled_update (c : Conv) (s : Settings) :
    (ndi_converter_update c s).accumulator_ns =
      (if s.enable_custom_framerate then 0 else c.accumulator_ns) ∧
    (ndi_converter_update c s).last_frame_timestamp =
      (if s.enable_custom_framerate then 0 else c.last_frame_timestamp) := by
  cases h : s.enable_custom_framerate <;> simp [ndi_converter_update, h]

/-- C10: a crop of source-space width 1 (strictly positive) under a 0.5x
downscale normalizes to scaled width floor(1 * 1920 / 3840) = 0, which the
subsequent "0 means use full dimension" step turns into the full 1920-pixel
width: the emitted region is the entire frame rather than a 1-source-pixel
sliver. -/
theorem C10_tiny_crop_becomes_full_frame :
    convCropTiny.enable_crop = true ∧ convCropTiny.crop_width = 1 ∧
    ndi_filter_crop_region convCropTiny 1920 1080 3840 2160 = (0, 0, 1920, 1080) := by
  decide

/-- One enabled gate call in closed form, under a positive interval, a
nonnegative accumulator and a non-decreasing timestamp with gap below 2^63:
the new accumulator is the remainder and the count the quotient of
(accumulator + delta) by the target interval. -/
theorem should_send_frame_eval (c : Conv) (ts : Nat)
    (hen : c.enable_custom_framerate = true)
    (hT : 0 < c.target_frame_interval_ns)
    (hacc : 0 ≤ c.accumulator_ns)
    (hts : ts < 2 ^ 64)
    (hmono : c.last_frame_timestamp ≤ ts)
    (hgap : ts - c.last_frame_timestamp < 2 ^ 63) :
    ndi_converter_should_send_frame c ts =
      ({ c with
          accumulator_ns := (((c.accumulator_ns + claimDelta c ts).toNat %
            c.target_frame_interval_ns.toNat : Nat) : Int)
          last_frame_timestamp := ts % 2 ^ 64 },
        decide (0 < (c.accumulator_ns + claimDelta c ts).toNat /
          c.target_frame_interval_ns.toNat),
        (c.accumulator_ns + claimDelta c ts).toNat /
          c.target_frame_interval_ns.toNat) := by
  have hne : ¬(¬c.enable_custom_framerate = true ∨ c.target_frame_interval_ns = 0) := by
    push_neg
    exact ⟨by simp [hen], by omega⟩
  have hdelta :
      (if c.last_frame_timestamp > 0
        then int64OfUInt64 (sub64 ts c.last_frame_timestamp) else 0) = claimDelta c ts := by
    unfold claimDelta
    by_cases h : 0 < c.last_frame_timestamp
    · rw [if_pos h, if_pos h, int64OfUInt64_sub64 ts c.last_frame_timestamp hmono hts hgap]
    · rw [if_neg h, if_neg h]
  have hd0 : (0:Int) ≤ claimDelta c ts := by
    unfold claimDelta
    split_ifs <;> omega
  simp only [ndi_converter_should_send_frame]
  rw [if_neg hne]
  simp only [hdelta, drain_nonneg _ _ hT (add_nonneg hacc hd0)]

set_option maxRecDepth 10000 in
/-- C3 counterexample: at 30000/1001 from a fresh reset, 1001 frames spaced
exactly 33333333 ns apart (first timestamp 33333333) yield a total emit
count different from the claimed 1000. -/
theorem C3_ntsc_total_not_1000 :
    (runGate conv2997 ntscTimestamps).2 ≠ 1000 := by decide

set_option maxRecDepth 10000 in
/-- C3 amended: that run totals exactly 999: the first frame is absorbed by
the 0 sentinel (delta forced to 0), leaving 1000 deltas of 33333333 ns =
33333333000 ns, which contain 999 target intervals of 33366666 ns (the
truncated interval the resolver actually stores). -/
theorem C3_ntsc_total_999 :
    (runGate conv2997 ntscTimestamps).2 = 999 := by decide

/-- C4: with frame-rate conversion enabled, a positive target interval, a
nonnegative accumulator, and a timestamp not below the previous one (gap
below 2^63), a gate call returns count = floor((accumulator + delta) /
targetIntervalNs) with delta = timestamp - lastFrameTimestampNs (forced to 0
under the 0 sentinel), leaves the accumulator in [0, targetIntervalNs), and
the first call after a reset returns count 0. -/
theorem C4_gate_floor_division (c : Conv) (ts : Nat)
    (hen : c.enable_custom_framerate = true)
    (hT : 0 < c.target_frame_interval_ns)
    (hacc : 0 ≤ c.accumulator_ns)
    (hts : ts < 2 ^ 64)
    (hmono : c.last_frame_timestamp ≤ ts)
    (hgap : ts - c.last_frame_timestamp < 2 ^ 63) :
    (ndi_converter_should_send_frame c ts).2.2 =
      (c.accumulator_ns + claimDelta c ts).toNat / c.target_frame_interval_ns.toNat ∧
    (ndi_converter_should_send_frame c ts).1.accumulator_ns =
      (((c.accumulator_ns + claimDelta c ts).toNat %
        c.target_frame_interval_ns.toNat : Nat) : Int) ∧
    0 ≤ (ndi_converter_should_send_frame c ts).1.accumulator_ns ∧
    (ndi_converter_should_send_frame c ts).1.accumulator_ns <
      c.target_frame_interval_ns ∧
    (c.last_frame_timestamp = 0 ∧ c.accumulator_ns = 0 →
      (ndi_converter_should_send_frame c ts).2.2 = 0) := by
  rw [should_send_frame_eval c ts hen hT hacc hts hmono hgap]
  dsimp only
  have hmod : (c.accumulator_ns + claimDelta c ts).toNat %
      c.target_frame_interval_ns.toNat < c.target_frame_interval_ns.toNat :=
    Nat.mod_lt _ (by omega)
  refine ⟨rfl, rfl, by omega, by omega, ?_⟩
  rintro ⟨h1, h2⟩
  simp [claimDelta, h1, h2]

/-- C4 witness: the gate theorem instantiated at the mid-run 29.97 fps state
(accumulator 5, previous timestamp 7) and frame timestamp 40000000. -/
theorem C4_gate_floor_division_witness :
    (0 < convMidRun.target_frame_interval_ns ∧ 0 ≤ convMidRun.accumulator_ns) ∧
    ((ndi_converter_should_send_frame convMidRun 40000000).2.2 =
      (convMidRun.accumulator_ns + claimDelta convMidRun 40000000).toNat /
        convMidRun.target_frame_interval_ns.toNat ∧
     (ndi_converter_should_send_frame convMidRun 40000000).1.accumulator_ns =
      (((convMidRun.accumulator_ns + claimDelta convMidRun 40000000).toNat %
        convMidRun.target_frame_interval_ns.toNat : Nat) : Int) ∧
     0 ≤ (ndi_converter_should_send_frame convMidRun 40000000).1.accumulator_ns ∧
     (ndi_converter_should_send_frame convMidRun 40000000).1.accumulator_ns <
       convMidRun.target_frame_interval_ns ∧
     (convMidRun.last_frame_timestamp = 0 ∧ convMidRun.accumulator_ns = 0 →
       (ndi_converter_should_send_frame convMidRun 40000000).2.2 = 0)) :=
  ⟨⟨by decide, by decide⟩,
    C4_gate_floor_division convMidRun 40000000 (by decide) (by decide) (by decide)
      (by decide) (by decide) (by decide)⟩

/-- Positivity of the resolved target-resolution pair, over the raw pieces
assembled by `ndi_converter_update`. -/
theorem res_pair_pos_iff (en : Bool) (m : Int) (cw ch : Nat)
    (hcw : 0 < cw) (hch : 0 < ch) :
    (0 < (if en then (if m = 5 then (cw, ch)
            else ndi_converter_get_preset_resolution m) else (0, 0)).1 ∧
     0 < (if en then (if m = 5 then (cw, ch)
            else ndi_converter_get_preset_resolution m) else (0, 0)).2) ↔
      (en = true ∧ (m = 1 ∨ m = 2 ∨ m = 3 ∨ m = 4 ∨ m = 5)) := by
  cases en
  · simp
  · simp only [if_true]
    by_cases hm : m = 5
    · rw [if_pos hm]
      simp [hm, hcw, hch]
    · rw [if_neg hm]
      rw [preset_resolution_pos_iff]
      simp [hm]

/-- C5 amended: the resolver is total, clamps customWidth to [128,7680],
customHeight to [72,4320], custom fps components up to at least 1 and
negative crop left/top to 0; targets are positive iff resolution conversion
is enabled with a valid non-Auto mode (720p/1080p/1440p/4K/Custom); and the
target interval is positive iff frame rate is enabled, both resolved rate
components are positive AND the rate is at most 10^9 fps (targetNum <=
10^9 x targetDen) — the final conjunct is what the original claim omitted. -/
theorem C5_resolver_clamps_and_iff (c : Conv) (s : Settings) :
    128 ≤ (ndi_converter_update c s).custom_width ∧
    (ndi_converter_update c s).custom_width ≤ 7680 ∧
    72 ≤ (ndi_converter_update c s).custom_height ∧
    (ndi_converter_update c s).custom_height ≤ 4320 ∧
    1 ≤ (ndi_converter_update c s).custom_fps_num ∧
    1 ≤ (ndi_converter_update c s).custom_fps_den ∧
    0 ≤ (ndi_converter_update c s).crop_left ∧
    0 ≤ (ndi_converter_update c s).crop_top ∧
    ((0 < (ndi_converter_update c s).target_width ∧
      0 < (ndi_converter_update c s).target_height) ↔
      (s.enable_custom_resolution = true ∧
        (s.resolution_mode = 1 ∨ s.resolution_mode = 2 ∨ s.resolution_mode = 3 ∨
          s.resolution_mode = 4 ∨ s.resolution_mode = 5))) ∧
    (0 < (ndi_converter_update c s).target_frame_interval_ns ↔
      (s.enable_custom_framerate = true ∧
        0 < (ndi_converter_update c s).target_fps_num ∧
        0 < (ndi_converter_update c s).target_fps_den ∧
        (ndi_converter_update c s).target_fps_num ≤
          1000000000 * (ndi_converter_update c s).target_fps_den)) := by
  refine ⟨?_, ?_, ?_, ?_, ?_, ?_, ?_, ?_, ?_, ?_⟩
  · cases hf : s.enable_custom_framerate <;>
      simp only [ndi_converter_update, hf, Bool.false_eq_true, if_false, if_true] <;>
      split_ifs <;> omega
  · cases hf : s.enable_custom_framerate <;>
      simp only [ndi_converter_update, hf, Bool.false_eq_true, if_false, if_true] <;>
      split_ifs <;> omega
  · cases hf : s.enable_custom_framerate <;>
      simp only [ndi_converter_update, hf, Bool.false_eq_true, if_false, if_true] <;>
      split_ifs <;> omega
  · cases hf : s.enable_custom_framerate <;>
      simp only [ndi_converter_update, hf, Bool.false_eq_true, if_false, if_true] <;>
      split_ifs <;> omega
  · cases hf : s.enable_custom_framerate <;>
      simp only [ndi_converter_update, hf, Bool.false_eq_true, if_false, if_true] <;>
      split_ifs <;> omega
  · cases hf : s.enable_custom_framerate <;>
      simp only [ndi_converter_update, hf, Bool.false_eq_true, if_false, if_true] <;>
      split_ifs <;> omega
  · cases hf : s.enable_custom_framerate <;>
      simp only [ndi_converter_update, hf, Bool.false_eq_true, if_false, if_true] <;>
      split_ifs <;> omega
  · cases hf : s.enable_custom_framerate <;>
      simp only [ndi_converter_update, hf, Bool.false_eq_true, if_false, if_true] <;>
      split_ifs <;> omega
  · cases hf : s.enable_custom_framerate <;>
      simp only [ndi_converter_update, hf, Bool.false_eq_true, if_false, if_true] <;>
      refine res_pair_pos_iff _ _ _ _ ?_ ?_ <;> split_ifs <;> omega
  · cases hf : s.enable_custom_framerate
    · simp only [ndi_converter_update, hf, Bool.false_eq_true, if_false]
      simp
    · simp only [ndi_converter_update, hf, if_true]
      rw [target_interval_pos_iff]
      simp

/-- C6 amended: with resolution conversion active (enabled, nonzero targets),
the scaler is recreated iff the handle is absent or the source
width/height/format differ from the stored last-build values.  Reuse
direction: with an existing handle and matching source geometry the call
returns true and leaves the state completely untouched, even when an
intervening settings update changed the target geometry the handle was built
for.  Recreate direction: on absence or mismatch the old handle is destroyed
first and, when the external creation succeeds, replaced by a fresh handle
(distinct from the old one, given the allocator ghost invariant that every
live handle id is below `alloc_ctr`) with the source fields updated; when
creation fails the handle stays destroyed (null) and the call reports
false - never grown in place. -/
theorem C6_scaler_recreate_iff_source_mismatch (c : Conv) (sw sh : Nat) (fmt : Int)
    (ok : Bool)
    (hres : c.enable_custom_resolution = true)
    (htw : c.target_width ≠ 0) (hth : c.target_height ≠ 0)
    (halive : ∀ k, c.scaler = some k → k < c.alloc_ctr) :
    (¬(c.scaler = none ∨ c.source_width ≠ sw ∨ c.source_height ≠ sh ∨
        c.source_format ≠ fmt) →
      ndi_converter_update_scaler c sw sh fmt ok = (c, true)) ∧
    ((c.scaler = none ∨ c.source_width ≠ sw ∨ c.source_height ≠ sh ∨
        c.source_format ≠ fmt) →
      (ok = true →
        (ndi_converter_update_scaler c sw sh fmt ok).1.scaler = some c.alloc_ctr ∧
        (ndi_converter_update_scaler c sw sh fmt ok).1.scaler ≠ c.scaler ∧
        (ndi_converter_update_scaler c sw sh fmt ok).1.source_width = sw ∧
        (ndi_converter_update_scaler c sw sh fmt ok).1.source_height = sh ∧
        (ndi_converter_update_scaler c sw sh fmt ok).1.source_format = fmt ∧
        (ndi_converter_update_scaler c sw sh fmt ok).2 = true) ∧
      (ok = false →
        (ndi_converter_update_scaler c sw sh fmt ok).1.scaler = none ∧
        (ndi_converter_update_scaler c sw sh fmt ok).2 = false)) := by
  have hg : ¬(¬c.enable_custom_resolution = true ∨ c.target_width = 0 ∨
      c.target_height = 0) := by
    simp [hres, htw, hth]
  have hne : (some c.alloc_ctr : Option Nat) ≠ c.scaler := by
    cases hsc : c.scaler with
    | none => simp
    | some k =>
      have hk := halive k hsc
      simp only [ne_eq, Option.some.injEq]
      omega
  simp only [ndi_converter_update_scaler]
  rw [if_neg hg]
  split_ifs with h2 h3 h4
  · exact ⟨fun hnn => absurd h2 hnn,
      fun _ => ⟨fun _ => ⟨rfl, hne, rfl, rfl, rfl, rfl⟩,
        fun hof => by simp [h3] at hof⟩⟩
  · exact ⟨fun hnn => absurd h2 hnn,
      fun _ => ⟨fun _ => ⟨rfl, hne, rfl, rfl, rfl, rfl⟩,
        fun hof => by simp [h3] at hof⟩⟩
  · exact ⟨fun hnn => absurd h2 hnn,
      fun _ => ⟨fun hot => by simp [hot] at h3, fun _ => ⟨rfl, rfl⟩⟩⟩
  · exact ⟨fun _ => rfl, fun hn => absurd hn h2⟩

/-- C6 witness: the recreation-iff theorem applied to the state whose target
was just changed from 1920x1080 to 1280x720 by a settings update: with the
matching 1280x720 source the stale scaler (handle 0) is reused and the state
untouched; with a mismatching 1920x1080 source the old handle is destroyed
and replaced by the fresh handle `alloc_ctr` = 2, distinct from handle 0. -/
theorem C6_scaler_recreate_iff_source_mismatch_witness :
    (convTargetChanged.enable_custom_resolution = true ∧
     convTargetChanged.scaler = some 0 ∧ convTargetChanged.alloc_ctr = 2 ∧
     convTargetChanged.source_width = 1280) ∧
    ndi_converter_update_scaler convTargetChanged 1280 720 0 true =
      (convTargetChanged, true) ∧
    ((ndi_converter_update_scaler convTargetChanged 1920 1080 0 true).1.scaler =
       some convTargetChanged.alloc_ctr ∧
     (ndi_converter_update_scaler convTargetChanged 1920 1080 0 true).1.scaler ≠
       convTargetChanged.scaler ∧
     (ndi_converter_update_scaler convTargetChanged 1920 1080 0 true).1.source_width =
       1920 ∧
     (ndi_converter_update_scaler convTargetChanged 1920 1080 0 true).2 = true) :=
  have halive : ∀ k, convTargetChanged.scaler = some k → k < convTargetChanged.alloc_ctr := by
    intro k hk
    have h0 : convTargetChanged.scaler = some 0 := by decide
    have ha : convTargetChanged.alloc_ctr = 2 := by decide
    rw [h0] at hk
    simp only [Option.some.injEq] at hk
    rw [ha]
    omega
  have hreuse :=
    (C6_scaler_recreate_iff_source_mismatch convTargetChanged 1280 720 0 true
      (by decide) (by decide) (by decide) halive).1 (by decide)
  have hrec :=
    ((C6_scaler_recreate_iff_source_mismatch convTargetChanged 1920 1080 0 true
      (by decide) (by decide) (by decide) halive).2 (by decide)).1 rfl
  ⟨⟨by decide, by decide, by decide, by decide⟩, hreuse,
    hrec.1, hrec.2.1, hrec.2.2.1, hrec.2.2.2.2.2⟩

/-- Each `ndi_converter_update_scaler` call either leaves the scaled buffer
and its capacity untouched, or reallocates because the capacity was below
the required size, setting the capacity to exactly that size. -/
theorem update_scaler_buffer_cases (c : Conv) (sw sh : Nat) (fmt : Int) (ok : Bool) :
    ((ndi_converter_update_scaler c sw sh fmt ok).1.scaled_buffer = c.scaled_buffer ∧
     (ndi_converter_update_scaler c sw sh fmt ok).1.scaled_buffer_size =
       c.scaled_buffer_size) ∨
    (c.scaled_buffer_size < c.target_width * c.target_height * 4 % 2 ^ 32 ∧
     (ndi_converter_update_scaler c sw sh fmt ok).1.scaled_buffer_size =
       c.target_width * c.target_height * 4 % 2 ^ 32) := by
  simp only [ndi_converter_update_scaler]
  split_ifs with h1 h2 h3 h4
  · exact Or.inl ⟨rfl, rfl⟩
  · exact Or.inr ⟨h4, rfl⟩
  · exact Or.inl ⟨rfl, rfl⟩
  · exact Or.inl ⟨rfl, rfl⟩
  · exact Or.inl ⟨rfl, rfl⟩

/-- C8: grow-only reuse of the scaled buffer.  (1) If the required size
targetWidth x targetHeight x 4 already fits in the current capacity, one call
leaves the buffer pointer and capacity unchanged; (2) the capacity never
shrinks; (3) the pointer only changes when the capacity was insufficient;
(4) two consecutive calls whose required size fits the original capacity
preserve the pointer and capacity across both. -/
theorem C8_buffer_grow_only (c : Conv) (sw sh : Nat) (fmt : Int) (ok : Bool) :
    (c.target_width * c.target_height * 4 % 2 ^ 32 ≤ c.scaled_buffer_size →
      (ndi_converter_update_scaler c sw sh fmt ok).1.scaled_buffer = c.scaled_buffer ∧
      (ndi_converter_update_scaler c sw sh fmt ok).1.scaled_buffer_size =
        c.scaled_buffer_size) ∧
    c.scaled_buffer_size ≤ (ndi_converter_update_scaler c sw sh fmt ok).1.scaled_buffer_size ∧
    ((ndi_converter_update_scaler c sw sh fmt ok).1.scaled_buffer ≠ c.scaled_buffer →
      c.scaled_buffer_size < c.target_width * c.target_height * 4 % 2 ^ 32) ∧
    (∀ (sw2 sh2 : Nat) (fmt2 : Int) (ok2 : Bool),
      c.target_width * c.target_height * 4 % 2 ^ 32 ≤ c.scaled_buffer_size →
      (ndi_converter_update_scaler (ndi_converter_update_scaler c sw sh fmt ok).1
        sw2 sh2 fmt2 ok2).1.scaled_buffer = c.scaled_buffer ∧
      (ndi_converter_update_scaler (ndi_converter_update_scaler c sw sh fmt ok).1
        sw2 sh2 fmt2 ok2).1.scaled_buffer_size = c.scaled_buffer_size) := by
  have key : ∀ (d : Conv) (a b : Nat) (f : Int) (o : Bool),
      d.target_width * d.target_height * 4 % 2 ^ 32 ≤ d.scaled_buffer_size →
      (ndi_converter_update_scaler d a b f o).1.scaled_buffer = d.scaled_buffer ∧
      (ndi_converter_update_scaler d a b f o).1.scaled_buffer_size =
        d.scaled_buffer_size := by
    intro d a b f o hle
    rcases update_scaler_buffer_cases d a b f o with h | h
    · exact h
    · exact absurd h.1 (by omega)
  refine ⟨key c sw sh fmt ok, ?_, ?_, ?_⟩
  · rcases update_scaler_buffer_cases c sw sh fmt ok with h | h <;> omega
  · intro hne
    rcases update_scaler_buffer_cases c sw sh fmt ok with h | h
    · exact absurd h.1 hne
    · exact h.1
  · intro sw2 sh2 fmt2 ok2 hle
    obtain ⟨hb1, hs1⟩ := key c sw sh fmt ok hle
    obtain ⟨htw, hth⟩ := update_scaler_preserves_target c sw sh fmt ok
    have hle2 : (ndi_converter_update_scaler c sw sh fmt ok).1.target_width *
        (ndi_converter_update_scaler c sw sh fmt ok).1.target_height * 4 % 2 ^ 32 ≤
        (ndi_converter_update_scaler c sw sh fmt ok).1.scaled_buffer_size := by
      rw [htw, hth, hs1]; exact hle
    obtain ⟨hb2, hs2⟩ := key _ sw2 sh2 fmt2 ok2 hle2
    exact ⟨hb2.trans hb1, hs2.trans hs1⟩

/-- C8 witness: the grow-only theorem applied at the state holding a
1920x1080 buffer (capacity 8294400): a call that rebuilds the scaler for a
changed 640x480 source leaves the buffer pointer and capacity unchanged,
since the required size still fits. -/
theorem C8_buffer_grow_only_witness :
    convScalerBuilt.target_width * convScalerBuilt.target_height * 4 % 2 ^ 32 ≤
      convScalerBuilt.scaled_buffer_size ∧
    ((ndi_converter_update_scaler convScalerBuilt 640 480 0 true).1.scaled_buffer =
      convScalerBuilt.scaled_buffer ∧
     (ndi_converter_update_scaler convScalerBuilt 640 480 0 true).1.scaled_buffer_size =
      convScalerBuilt.scaled_buffer_size) :=
  ⟨by decide, (C8_buffer_grow_only convScalerBuilt 640 480 0 true).1 (by decide)⟩
